import Mathlib

/-!
Shallow embedding of the Tencent-Stock-Agent backend (`src/app.py`) and
verification of the specification's claims about it.

Conventions of the embedding:
* Wall-clock timestamps (`time.time()`) are modelled as integers; the claims
  only depend on differences and comparisons of timestamps.
* The process-wide dictionaries `_cache` and `_rating_cache` are modelled as
  association lists with Python-dict overwrite semantics (a later `set`
  shadows an earlier one; lookup finds the most recent binding).
* Upstream HTTP calls are modelled by explicit parameters carrying the
  outcome of the call (failure, or the decoded payload); an exception raised
  anywhere inside a `try` block is modelled by the corresponding
  failure/`none` case.
* All values that Python stores as JSON scalars inside the quote / kline
  payloads are modelled as `String`s; kline prices are exact rationals.
-/

namespace StockAgent

/-! ### TTL cache (`_get_cache` / `_set_cache`, app.py lines 46-63) -/

/-- Constant `CACHE_TTL = 300` (app.py line 48). -/
def CACHE_TTL : Int := 300

/-- The `_cache` dict: key ↦ `(ts, data)`.  Modelled as an association list;
`cacheSet` prepends, so `List.lookup` sees the most recent binding first,
matching Python dict assignment. -/
def Cache (α : Type) : Type := List (String × (Int × α))

/-- Python `_set_cache(key, data)` executed at wall-clock time `now`
(app.py lines 62-63): stores `(time.time(), data)` under `key`. -/
def cacheSet {α : Type} (c : Cache α) (now : Int) (key : String) (data : α) :
    Cache α :=
  (key, (now, data)) :: c

/-- Python `_get_cache(key)` executed at wall-clock time `now` (app.py lines 54-59):
if the key is present and `time.time() - ts < CACHE_TTL`, return the stored
data, else `None`. -/
def cacheGet {α : Type} (c : Cache α) (now : Int) (key : String) : Option α :=
  match List.lookup key c with
  | some (ts, data) => if now - ts < CACHE_TTL then some data else none
  | none => none

/-- One mutation of the `_cache` dict: a `_set_cache` call, or the
`_cache.clear()` performed by `/api/refresh` (app.py line 701). -/
inductive CacheOp (α : Type) where
  | set (now : Int) (key : String) (data : α)
  | clear

/-- Replay a sequence of cache mutations starting from the empty dict. -/
def runCacheOps {α : Type} : List (CacheOp α) → Cache α
  | [] => []
  | CacheOp.set now key data :: ops => cacheSet (runCacheOps ops) now key data
  | CacheOp.clear :: _ => []

/-- The key (if any) written by a cache mutation. -/
def CacheOp.writes {α : Type} : CacheOp α → Option String
  | CacheOp.set _ key _ => some key
  | CacheOp.clear => none

/-! ### Kline fetch (`fetch_kline_data`, app.py lines 166-213) -/

/-- One candlestick row (`kline_list.append({...})`, app.py lines 201-208).
Field `kdate` is the row's `date`; prices/volume are exact rationals. -/
structure KlinePoint where
  kdate : String
  kopen : ℚ
  kclose : ℚ
  khigh : ℚ
  klow : ℚ
  kvol : ℚ
deriving DecidableEq, Repr

/-- Key `cache_key`, built as `"kline_" + period + "_" + count` (app.py line 171).  Note the key
is built from the RAW parameters, before the coercion at lines 177-179. -/
def klineCacheKey (period : String) (count : Int) : String :=
  "kline_" ++ period ++ "_" ++ toString count

/-- Coercion `if period not in ("day", "week", "month"): period = "day"`
(app.py lines 177-178). -/
def normalizePeriod (period : String) : String :=
  if period = "day" ∨ period = "week" ∨ period = "month" then period else "day"

/-- Clamp `count = min(max(count, 10), 1500)` (app.py line 179). -/
def normalizeCount (count : Int) : Int :=
  min (max count 10) 1500

/-- Function `fetch_kline_data(period, count)` at wall-clock `now` (app.py 166-213).
`upstream p c` models the whole `try` block at lines 182-210: the list built
from a successful Tencent response for normalized parameters `(p, c)`, or
`[]` when the request fails or the payload is missing (the `except` branch
leaves `kline_list` empty).  Returns the list together with the updated
`_cache`.  The cache check `if cached:` is Python truthiness: a cached empty
list does NOT short-circuit. -/
def fetch_kline_data (c : Cache (List KlinePoint)) (now : Int)
    (period : String) (count : Int)
    (upstream : String → Int → List KlinePoint) :
    List KlinePoint × Cache (List KlinePoint) :=
  let key := klineCacheKey period count
  let fetched :=
    let p := normalizePeriod period
    let n := normalizeCount count
    let kline_list := upstream p n
    (kline_list, cacheSet c now key kline_list)
  match cacheGet c now key with
  | some cached => if cached.isEmpty then fetched else (cached, c)
  | none => fetched

/-! ### News aggregation (`fetch_news`, app.py lines 289-401) -/

/-- One normalized news item (the dicts built at app.py lines 276-283,
337-346, 376-384).  `tag` is `"stock"` or `"general"` as produced by
`_classify_news`; `lang` is `"en"` for the Google-News items and `"zh"`
(the implicit default) otherwise. -/
structure NewsItem where
  title : String
  url : String
  source : String
  time : String
  summary : String
  tag : String
  lang : String := "zh"
deriving DecidableEq, Repr

/-- The dedup loop at app.py lines 388-394: walk `all_news`, keep an item iff
its exact `title` string has not been seen before.  `seen` is the running
`seen` set. -/
def dedupByTitle (seen : List String) : List NewsItem → List NewsItem
  | [] => []
  | n :: ns =>
    if n.title ∈ seen then dedupByTitle seen ns
    else n :: dedupByTitle (n.title :: seen) ns

/-- Sort `unique_news.sort(key=lambda x: (0 if x.get("tag") == "stock" else 1))`
(app.py line 397).  Python's `list.sort` is stable, and on a two-valued key a
stable sort is exactly: all key-0 items in original order, then all key-1
items in original order. -/
def sortStockFirst (l : List NewsItem) : List NewsItem :=
  l.filter (fun x => x.tag = "stock") ++ l.filter (fun x => ¬ x.tag = "stock")

/-- The pure post-processing tail of `fetch_news` (app.py lines 388-399):
dedup by title, stable-sort stock-tagged items first, truncate to 25. -/
def newsPipeline (all_news : List NewsItem) : List NewsItem :=
  (sortStockFirst (dedupByTitle [] all_news)).take 25

/-- Function `fetch_news()` at wall-clock `now` (app.py lines 289-401).  `gathered`
models `all_news` as accumulated from the upstream sources (lines 301-386);
each source degrades to zero items on failure, so `gathered` is an arbitrary
list.  The cache check `if cached:` is Python truthiness: a cached empty
list does NOT short-circuit. -/
def fetch_news (c : Cache (List NewsItem)) (now : Int)
    (gathered : List NewsItem) : List NewsItem × Cache (List NewsItem) :=
  let fetched :=
    let result := newsPipeline gathered
    (result, cacheSet c now "news_data" result)
  match cacheGet c now "news_data" with
  | some cached => if cached.isEmpty then fetched else (cached, c)
  | none => fetched

/-! ### Quote fetch (`fetch_stock_data`, app.py lines 69-163) -/

/-- The `stock_info` dict.  The fields present in the initializer at app.py
lines 82-99 are plain `String`s starting at the sentinel `"--"`; fields that
Python only adds later (`name_en` on primary success, the extra valuation
fields on secondary success) are `Option String`, `none` meaning the key is
absent from the dict. -/
structure StockInfo where
  name : String
  code : String
  name_en : Option String := none
  current_price : String
  change : String
  change_percent : String
  open_ : String
  high : String
  low : String
  prev_close : String
  volume : String
  turnover : String
  market_cap : String
  pe_ratio : String
  w52_high : String
  w52_low : String
  dividend_yield : Option String := none
  pb_ratio : Option String := none
  turnover_rate : Option String := none
  amplitude : Option String := none
  total_shares : Option String := none
  float_shares : Option String := none
  nav_per_share : Option String := none
  updated_at : String
deriving DecidableEq, Repr

/-- The initializer at app.py lines 82-99 (`nowStr` is the formatted
`datetime.now()`). -/
def initStockInfo (nowStr : String) : StockInfo :=
  { name := "腾讯控股"
    code := "00700.HK"
    current_price := "--"
    change := "--"
    change_percent := "--"
    open_ := "--"
    high := "--"
    low := "--"
    prev_close := "--"
    volume := "--"
    turnover := "--"
    market_cap := "--"
    pe_ratio := "--"
    w52_high := "--"
    w52_low := "--"
    updated_at := nowStr }

/-- Outcome of one upstream HTTP call inside its `try` block: `failure` when
the request raised (network error, timeout, undecodable payload), or the
response's status code together with the decoded payload. -/
inductive FeedResult (α : Type) where
  | failure
  | resp (status : Nat) (payload : α)
deriving DecidableEq, Repr

/-- The primary (Sina) branch, app.py lines 101-130.  The payload is the raw
response text.  On status 200, if the text contains `"`, take
`text.split('"')[1]`, split it on commas, and if more than 15 fields update
the price fields (indices per lines 115-128). -/
def applyPrimary (info : StockInfo) (nowStr : String)
    (primary : FeedResult String) : StockInfo :=
  match primary with
  | FeedResult.failure => info
  | FeedResult.resp status text =>
    if status = 200 then
      if text.contains '"' then
        let data_str := (text.splitOn "\"").getD 1 ""
        let fields := data_str.splitOn ","
        if fields.length > 15 then
          { info with
            name := "腾讯控股"
            name_en := some (if fields.getD 0 "" ≠ "" then fields.getD 0 "" else "TENCENT")
            current_price := fields.getD 6 ""
            change := fields.getD 7 ""
            change_percent := fields.getD 8 ""
            prev_close := fields.getD 3 ""
            open_ := fields.getD 2 ""
            high := fields.getD 4 ""
            low := fields.getD 5 ""
            volume := fields.getD 12 ""
            turnover := fields.getD 11 ""
            updated_at := nowStr }
        else info
      else info
    else info

/-- The secondary (Tencent) branch, app.py lines 133-160.  The payload is the
`qt` list extracted by `data["data"]["hk00700"].get("qt", {}).get("hk00700", [])`;
a missing path yields `[]`, which fails the `if qt and len(qt) > 45` guard
exactly like a short list does.  Elements are modelled as strings. -/
def applySecondary (info : StockInfo)
    (secondary : FeedResult (List String)) : StockInfo :=
  match secondary with
  | FeedResult.failure => info
  | FeedResult.resp status qt =>
    if status = 200 then
      if ¬ qt.isEmpty ∧ qt.length > 45 then
        { info with
          current_price :=
            if info.current_price = "--" then qt.getD 3 "" else info.current_price
          market_cap := if qt.length > 45 then qt.getD 45 "" else "--"
          pe_ratio := if qt.length > 39 then qt.getD 39 "" else "--"
          w52_high := if qt.length > 48 then qt.getD 48 "" else "--"
          w52_low := if qt.length > 49 then qt.getD 49 "" else "--"
          dividend_yield := some (if qt.length > 47 then qt.getD 47 "" else "--")
          pb_ratio := some (if qt.length > 51 then qt.getD 51 "" else "--")
          turnover_rate := some (if qt.length > 50 then qt.getD 50 "" else "--")
          amplitude := some (if qt.length > 43 then qt.getD 43 "" else "--")
          total_shares := some (if qt.length > 69 then qt.getD 69 "" else "--")
          float_shares := some (if qt.length > 70 then qt.getD 70 "" else "--")
          nav_per_share := some (if qt.length > 72 then qt.getD 72 "" else "--") }
      else info
    else info

/-- The merge core of `fetch_stock_data` (app.py lines 82-163, caching at
lines 71-73 and 162 aside): initialize with sentinels, apply the primary
feed, then the secondary feed.  Total by construction — each feed failure is
absorbed and the record is always returned. -/
def buildStockInfo (nowStr : String) (primary : FeedResult String)
    (secondary : FeedResult (List String)) : StockInfo :=
  applySecondary (applyPrimary (initStockInfo nowStr) nowStr primary) secondary

/-! ### Daily rating (`get_rating`, app.py lines 721-888) -/

/-- The `factors` sub-object of a rating. -/
structure Factors where
  technical : String
  fundamental : String
  sentiment : String
deriving DecidableEq, Repr

/-- Dict with technical/fundamental/sentiment all `"--"` — the
default installed at app.py lines 866-870 (and used by the error fallback at
lines 882-886). -/
def defaultFactors : Factors :=
  { technical := "--", fundamental := "--", sentiment := "--" }

/-- A finished rating dict.  `summary` is an `Option` because the source
never writes the `summary` key itself on the success path: it is whatever
the parsed JSON carried, possibly absent. -/
structure Rating where
  date : String
  rating : String
  score : Int
  summary : Option String
  factors : Factors
deriving DecidableEq, Repr

/-- The parsed JSON object `rating_data = json.loads(cleaned)` (app.py
line 855), restricted to the keys the validation code reads.
* `rating`: the value of the `"rating"` key (`none` = key absent; a present
  non-string value also fails the membership test and is covered by a string
  outside the allowed list).
* `score`: `none` = key absent (Python defaults to `50`);
  `some none` = present but `int(...)` raises; `some (some n)` = present and
  `int(...)` returns `n`.
* `factors`: `none` = key absent. -/
structure ParsedRating where
  rating : Option String
  score : Option (Option Int)
  summary : Option String
  factors : Option Factors
deriving DecidableEq, Repr

/-- List `valid_ratings` (app.py line 858). -/
def valid_ratings : List String := ["强烈推荐", "推荐", "中性", "谨慎", "回避"]

/-- The validation/repair block at app.py lines 857-870, producing the final
rating dict from the parsed JSON.  Returns `none` when `int(rating_data.get
("score", 50))` raises (which the outer `except` turns into the fallback). -/
def validateRating (p : ParsedRating) (today : String) : Option Rating :=
  let r := match p.rating with
    | some s => if s ∈ valid_ratings then s else "中性"
    | none => "中性"
  match p.score with
  | some none => none
  | some (some n) =>
    some { date := today, rating := r, score := max 0 (min 100 n),
           summary := p.summary, factors := p.factors.getD defaultFactors }
  | none =>
    some { date := today, rating := r, score := max 0 (min 100 50),
           summary := p.summary, factors := p.factors.getD defaultFactors }

/-- The outcome of the whole LLM round-trip at app.py lines 801-855, up to
and including `json.loads`:
* `failure` — any exception before a parsed object exists: network error,
  non-200 status (line 840 raises), empty extracted content (line 843
  raises), JSON decode error at line 855.
* `parsed p` — `json.loads` succeeded and produced the object `p`. -/
inductive LLMOutcome where
  | failure
  | parsed (p : ParsedRating)
deriving DecidableEq, Repr

/-- Dict `_rating_cache`: date string ↦ rating (app.py line 51), with Python-dict
overwrite semantics. -/
def RatingCache : Type := List (String × Rating)

/-- The fallback returned (and memoized) when no API key is configured
(app.py lines 739-750). -/
def noKeyRating (today : String) : Rating :=
  { date := today, rating := "中性", score := 50,
    summary := some "未配置 AI 大模型 API Key，无法生成智能评级。请在 .env 中配置 LLM_API_KEY 后重试。",
    factors := { technical := "无法分析", fundamental := "无法分析",
                 sentiment := "无法分析" } }

/-- The neutral fallback built in the `except` branch (app.py lines 875-888);
NOT written to `_rating_cache`. -/
def errorRating (today : String) : Rating :=
  { date := today, rating := "中性", score := 50,
    summary := some "AI 评级生成失败，请稍后重试。",
    factors := defaultFactors }

/-- Function `get_rating()` (app.py lines 721-888) as a state transformer on
`_rating_cache`.  `today` is the formatted current date; `hasKey` is
`bool(LLM_API_KEY)`; `outcome` is what the LLM round-trip would produce if
invoked.  Returns the served rating, the new `_rating_cache`, and whether
the LLM backend was actually invoked. -/
def get_rating (st : RatingCache) (today : String) (hasKey : Bool)
    (outcome : LLMOutcome) : Rating × RatingCache × Bool :=
  match List.lookup today st with
  | some cached => (cached, st, false)
  | none =>
    if hasKey then
      match outcome with
      | LLMOutcome.failure => (errorRating today, st, true)
      | LLMOutcome.parsed p =>
        match validateRating p today with
        | some r => (r, (today, r) :: st, true)
        | none => (errorRating today, st, true)
    else
      (noKeyRating today, (today, noKeyRating today) :: st, false)

/-! ### SSE stream consumption (`_stream_llm`, app.py lines 941-952;
identical loop in `stream_ai_analysis`, lines 507-518) -/

/-- A Python value as produced by `json.loads`: `null`, a boolean, a
number, a string, an array, or an object (whose keys are always strings in
decoded JSON). -/
inductive PyVal where
  | pyNull
  | pyBool (b : Bool)
  | pyNum (q : ℚ)
  | pyStr (s : String)
  | pyList (xs : List PyVal)
  | pyDict (entries : List (String × PyVal))

/-- Outcome of one Python subscript / membership step inside the `try`
line body.  The inner `except` tuple at app.py lines 517 and 951 is
`(json.JSONDecodeError, KeyError, IndexError)`: it catches `KeyError` and
`IndexError` but NOT `TypeError`, so the two outcomes must be kept
apart — `keyIndexError` is absorbed by the loop (skip), `typeError`
escapes it (the whole stream aborts into the outer handler). -/
inductive PyAccess (α : Type) where
  | ok (a : α)
  | keyIndexError
  | typeError

/-- Python `v[k]` for a string key `k`: dict lookup (missing key =
`KeyError`); a list or a string subscripted by a string, and any
non-subscriptable value, raise `TypeError`. -/
def pyGetStr : PyVal → String → PyAccess PyVal
  | PyVal.pyDict d, k =>
    match List.lookup k d with
    | some v => PyAccess.ok v
    | none => PyAccess.keyIndexError
  | PyVal.pyList _, _ => PyAccess.typeError
  | PyVal.pyStr _, _ => PyAccess.typeError
  | PyVal.pyNull, _ => PyAccess.typeError
  | PyVal.pyBool _, _ => PyAccess.typeError
  | PyVal.pyNum _, _ => PyAccess.typeError

/-- Python `v[0]`: list head (`IndexError` on empty), first character of a
string (`IndexError` on empty), `KeyError` on a dict (decoded-JSON dict
keys are strings, never the integer `0`), `TypeError` otherwise. -/
def pyGetZero : PyVal → PyAccess PyVal
  | PyVal.pyList xs =>
    match xs.head? with
    | some v => PyAccess.ok v
    | none => PyAccess.keyIndexError
  | PyVal.pyStr s =>
    match s.toList.head? with
    | some ch => PyAccess.ok (PyVal.pyStr (String.mk [ch]))
    | none => PyAccess.keyIndexError
  | PyVal.pyDict _ => PyAccess.keyIndexError
  | PyVal.pyNull => PyAccess.typeError
  | PyVal.pyBool _ => PyAccess.typeError
  | PyVal.pyNum _ => PyAccess.typeError

/-- Python `"content" in v`: key membership on a dict, element equality on
a list, substring test on a string; `TypeError` on anything else. -/
def pyHasContent : PyVal → PyAccess Bool
  | PyVal.pyDict d => PyAccess.ok (d.any (fun e => e.1 == "content"))
  | PyVal.pyList xs =>
    PyAccess.ok (xs.any (fun v =>
      match v with
      | PyVal.pyStr s => s == "content"
      | _ => false))
  | PyVal.pyStr s =>
    PyAccess.ok ((List.range (s.toList.length + 1)).any
      (fun i => "content".toList.isPrefixOf (s.toList.drop i)))
  | PyVal.pyNull => PyAccess.typeError
  | PyVal.pyBool _ => PyAccess.typeError
  | PyVal.pyNum _ => PyAccess.typeError

/-- What the loop body does with one line.  `abort` is an uncaught
exception (`TypeError`) escaping the inner `except` tuple: it ends the
whole `async for` loop, not just this line. -/
inductive LineAct where
  | emit (v : PyVal)
  | skip
  | abort
  | term

/-- How the consumption loop ends: normally (exhausted body or `[DONE]`),
or aborted by an uncaught exception, in which case the outer
`except Exception` handler takes over (diagnostic fragment at app.py
line 955 / fallback report at line 521). -/
inductive StreamEnd where
  | finished
  | aborted
deriving DecidableEq, Repr

/-- Python `line.startswith(pre)`: code-point prefix test. -/
def pyStartsWith (line pre : String) : Bool :=
  pre.toList.isPrefixOf line.toList

/-- Python `s[n:]`: drop the first `n` code points. -/
def pyDrop (s : String) (n : Nat) : String :=
  String.mk (s.toList.drop n)

/-- Python `s.strip()`: remove leading and trailing whitespace code
points. -/
def pyStrip (s : String) : String :=
  String.mk
    (((s.toList.dropWhile Char.isWhitespace).reverse.dropWhile
        Char.isWhitespace).reverse)

/-- The `delta = chunk["choices"][0]["delta"]; if "content" in delta:
yield delta["content"]` chain (app.py lines 948-950) on a successfully
decoded payload.  `KeyError` / `IndexError` at any step is caught by the
inner `except` (skip); `TypeError` is not in the `except` tuple and aborts
the loop. -/
def lineOutcome (chunk : PyVal) : LineAct :=
  match pyGetStr chunk "choices" with
  | PyAccess.typeError => LineAct.abort
  | PyAccess.keyIndexError => LineAct.skip
  | PyAccess.ok choices =>
    match pyGetZero choices with
    | PyAccess.typeError => LineAct.abort
    | PyAccess.keyIndexError => LineAct.skip
    | PyAccess.ok choice0 =>
      match pyGetStr choice0 "delta" with
      | PyAccess.typeError => LineAct.abort
      | PyAccess.keyIndexError => LineAct.skip
      | PyAccess.ok delta =>
        match pyHasContent delta with
        | PyAccess.typeError => LineAct.abort
        | PyAccess.keyIndexError => LineAct.skip
        | PyAccess.ok false => LineAct.skip
        | PyAccess.ok true =>
          match pyGetStr delta "content" with
          | PyAccess.typeError => LineAct.abort
          | PyAccess.keyIndexError => LineAct.skip
          | PyAccess.ok v => LineAct.emit v

/-- The per-line logic of the loop at app.py lines 941-952.  `decode`
models `json.loads` on the sliced payload: `none` =
`json.JSONDecodeError` (caught, skip).  A line without the `data: ` prefix
is ignored; `data: ` + (stripped) `[DONE]` breaks the loop; otherwise the
decoded value is fed through the subscript chain of `lineOutcome`, whose
`TypeError` outcomes abort the loop because the `except` tuple at lines
517/951 omits `TypeError`. -/
def processLine (decode : String → Option PyVal) (line : String) : LineAct :=
  if pyStartsWith line "data: " then
    let data_str := pyDrop line 6
    if pyStrip data_str = "[DONE]" then LineAct.term
    else
      match decode data_str with
      | none => LineAct.skip
      | some chunk => lineOutcome chunk
  else LineAct.skip

/-- The whole consumption loop: the fragments yielded for a list of body
lines, in order, together with how the loop ended.  A terminator line ends
it normally; an aborting line ends it with `aborted` (the remaining lines
are never consumed — control passes to the outer exception handler). -/
def streamFragments (decode : String → Option PyVal) :
    List String → List PyVal × StreamEnd
  | [] => ([], StreamEnd.finished)
  | line :: rest =>
    match processLine decode line with
    | LineAct.term => ([], StreamEnd.finished)
    | LineAct.abort => ([], StreamEnd.aborted)
    | LineAct.emit v =>
      (v :: (streamFragments decode rest).1, (streamFragments decode rest).2)
    | LineAct.skip => streamFragments decode rest

/-- Whether a line's action stops the consumption loop. -/
def LineAct.isStop : LineAct → Bool
  | LineAct.term => true
  | LineAct.abort => true
  | LineAct.emit _ => false
  | LineAct.skip => false

/-! ### Fallback analysis report (`_generate_fallback_analysis`,
app.py lines 524-655) -/

/-- Decimal rendering of a kline price, standing for Python's `str(float)`
in the interpolations of the report template.  A deterministic total
function; the exact digit strings of the float repr are immaterial to the
properties proved here. -/
def pyNum (q : ℚ) : String :=
  if q.den = 1 then toString q.num ++ ".0" else toString q

/-- Rendering of `f"{change_val:+.2f}"` (app.py line 570): explicit sign and
two decimal digits of the rounded value. -/
def signedTwoDec (q : ℚ) : String :=
  let sgn := if q < 0 then "-" else "+"
  let cents : Int := Int.floor (|q| * 100 + 1 / 2)
  let whole := cents / 100
  let frac := cents % 100
  sgn ++ toString whole ++ "." ++
    (if frac < 10 then "0" ++ toString frac else toString frac)

/-- Construction of `trend_text` (app.py lines 532-549): compare the first
and last of the most recent 5 closes, then refine with the 5-point versus
20-point moving average when at least 20 points exist. -/
def trendText (kline : List KlinePoint) : String :=
  if ¬ kline.isEmpty ∧ kline.length ≥ 5 then
    let recent5 := kline.drop (kline.length - 5)
    let closes := recent5.map (fun k => k.kclose)
    let base :=
      if closes.getLastD 0 > closes.headD 0 then "近5个交易日整体呈上涨趋势"
      else if closes.getLastD 0 < closes.headD 0 then "近5个交易日整体呈下跌趋势"
      else "近5个交易日整体呈震荡态势"
    let avg5 := closes.sum / (closes.length : ℚ)
    if kline.length ≥ 20 then
      let avg20 := ((kline.drop (kline.length - 20)).map (fun k => k.kclose)).sum / 20
      if avg5 > avg20 then base ++ "，5日均线位于20日均线上方，短期偏多"
      else base ++ "，5日均线位于20日均线下方，短期偏空"
    else base
  else ""

/-- Construction of `news_section` (app.py lines 551-562): top 8 titles with
sources, or the explicit no-news notice. -/
def newsSection (news : List NewsItem) : String :=
  if ¬ news.isEmpty then
    let news_items := String.intercalate "\n"
      ((news.take 8).map (fun n => "- " ++ n.title ++ "（来源: " ++ n.source ++ "）"))
    "\n### 📰 最新新闻动态\n\n" ++ news_items ++
      "\n\n以上新闻反映了市场对腾讯的最新关注点。投资者需结合新闻内容分析对股价的潜在影响。\n"
  else "\n### 📰 最新新闻动态\n\n暂未获取到最新的腾讯相关新闻。\n"

/-- Construction of `kline_detail` (app.py lines 564-574): a markdown table
of the last 5 candles, each row carrying a directional marker chosen by
`close - open >= 0`. -/
def klineDetail (kline : List KlinePoint) : String :=
  if ¬ kline.isEmpty ∧ kline.length ≥ 5 then
    let kline_rows := String.join ((kline.drop (kline.length - 5)).map (fun k =>
      let change_val := k.kclose - k.kopen
      let emoji := if change_val ≥ 0 then "🔴" else "🟢"
      "| " ++ k.kdate ++ " | " ++ pyNum k.kopen ++ " | " ++ pyNum k.kclose ++
        " | " ++ pyNum k.khigh ++ " | " ++ pyNum k.klow ++ " | " ++ emoji ++
        " " ++ signedTwoDec change_val ++ " |\n"))
    "\n| 日期 | 开盘 | 收盘 | 最高 | 最低 | 涨跌 |\n|------|------|------|------|------|------|\n"
      ++ kline_rows
  else ""

/-- Function `_generate_fallback_analysis(stock_data, news_list, kline_data)`
(app.py lines 524-655).  The wall clock enters only through `now`, the
formatted generation timestamp computed once at line 529; everything else is
a pure function of the three inputs. -/
def generateFallbackAnalysis (stock : StockInfo) (news : List NewsItem)
    (kline : List KlinePoint) (now : String) : String :=
  let price := stock.current_price
  let chg := stock.change
  let change_pct := stock.change_percent
  let trend_text := trendText kline
  let news_section := newsSection news
  let kline_detail := klineDetail kline
  "# 🏦 腾讯控股（00700.HK）AI分析报告\n\n" ++
  "> 📅 分析时间：" ++ now ++ "\n\n" ++
  "---\n\n" ++
  "## 1. 📊 市场概览\n\n" ++
  "腾讯控股（00700.HK）当前报价 **" ++ price ++ " HKD**，涨跌额 " ++ chg ++
    "，涨跌幅 " ++ change_pct ++ "%。\n\n" ++
  "| 指标 | 数值 |\n" ++
  "|------|------|\n" ++
  "| 当前价格 | " ++ price ++ " HKD |\n" ++
  "| 今日开盘 | " ++ stock.open_ ++ " |\n" ++
  "| 最高价 | " ++ stock.high ++ " |\n" ++
  "| 最低价 | " ++ stock.low ++ " |\n" ++
  "| 昨日收盘 | " ++ stock.prev_close ++ " |\n" ++
  "| 成交量 | " ++ stock.volume ++ " |\n" ++
  "| 成交额 | " ++ stock.turnover ++ " |\n" ++
  "| 市盈率(PE) | " ++ stock.pe_ratio ++ " |\n" ++
  "| 总市值 | " ++ stock.market_cap ++ " |\n" ++
  "| 52周最高 | " ++ stock.w52_high ++ " |\n" ++
  "| 52周最低 | " ++ stock.w52_low ++ " |\n\n" ++
  "---\n\n" ++
  "## 2. 📈 技术面分析\n\n" ++
  (if trend_text ≠ "" then trend_text else "暂无足够的K线数据进行技术分析。") ++ "\n\n" ++
  kline_detail ++ "\n\n" ++
  "**技术指标解读：**\n" ++
  "- 关注成交量变化，放量上涨为积极信号\n" ++
  "- 关注关键支撑位与阻力位的突破情况\n" ++
  "- 建议结合MACD、RSI等技术指标综合判断\n\n" ++
  "---\n\n" ++
  "## 3. 📰 消息面分析\n\n" ++
  news_section ++ "\n\n" ++
  "---\n\n" ++
  "## 4. 🏢 基本面分析\n\n" ++
  "腾讯控股作为中国最大的互联网公司之一，业务涵盖：\n" ++
  "- **游戏业务**：全球领先的游戏发行商，持续贡献核心收入\n" ++
  "- **社交平台**：微信/WeChat月活超13亿，具备强大的生态壁垒\n" ++
  "- **金融科技**：微信支付、理财通等金融科技服务持续增长\n" ++
  "- **云服务**：腾讯云在国内市场份额稳步提升\n" ++
  "- **投资生态**：持有众多优质公司股权，投资回报可观\n\n" ++
  "当前市盈率为 " ++ stock.pe_ratio ++ "，投资者可参考历史估值中枢评估当前估值水平。\n\n" ++
  "---\n\n" ++
  "## 5. ⚠️ 风险提示\n\n" ++
  "1. **政策监管风险**：互联网行业政策持续演变，需关注监管动态\n" ++
  "2. **宏观经济风险**：全球经济不确定性可能影响业务增长\n" ++
  "3. **行业竞争风险**：短视频、电商等领域竞争加剧\n" ++
  "4. **地缘政治风险**：中美关系变化可能影响港股市场情绪\n" ++
  "5. **汇率风险**：港币兑人民币汇率波动影响实际收益\n\n" ++
  "---\n\n" ++
  "## 6. 💡 操作建议\n\n" ++
  "| 策略 | 建议 |\n" ++
  "|------|------|\n" ++
  "| **短期（1-2周）** | 关注技术面支撑/压力位，轻仓灵活操作 |\n" ++
  "| **中期（1-3月）** | 关注财报发布和业务数据，逢低布局 |\n" ++
  "| **长期（6月以上）** | 腾讯基本面优质，适合长期价值投资 |\n\n" ++
  "---\n\n" ++
  "> ⚠️ **免责声明**：以上分析由AI生成，仅供参考，不构成任何投资建议。投资有风险，入市需谨慎。请投资者根据自身风险承受能力做出独立判断。\n"

/-! ### Concrete probe data and small helpers used by the proofs -/

/-- Helper input list for exercising `fetch_kline_data` on concrete data:
the upstream fetch returns a single row recording the normalized parameters
it was called with. -/
def klineProbe : String → Int → List KlinePoint :=
  fun p c => [{ kdate := p ++ "/" ++ toString c,
                kopen := 1, kclose := 2, khigh := 3, klow := 0, kvol := c }]

/-- The fragment (if any) a single body line contributes. -/
def emittedFragment (decode : String → Option PyVal) (line : String) :
    Option PyVal :=
  match processLine decode line with
  | LineAct.emit v => some v
  | LineAct.skip => none
  | LineAct.abort => none
  | LineAct.term => none

/-- Concrete decoder for exercising the loop: `"null"` decodes to JSON
`null` (as `json.loads` does), `"payload1"` decodes to a well-formed
chunk carrying the content `"Hello"`, everything else fails to decode. -/
def c9decode : String → Option PyVal :=
  fun s =>
    if s = "null" then some PyVal.pyNull
    else if s = "payload1" then
      some (PyVal.pyDict [("choices",
        PyVal.pyList [PyVal.pyDict [("delta",
          PyVal.pyDict [("content", PyVal.pyStr "Hello")])]])])
    else none

/-- Helper `qt` payload for exercising the secondary feed on concrete data:
46 entries, with a price at index 3, a P/E at index 39 and a market cap at
index 45. -/
def c6Qt : List String :=
  (((List.replicate 46 "x").set 3 "610.5").set 39 "20.1").set 45 "56000"

/-- The sort key of app.py line 397: `0` for stock-tagged items, `1` for
everything else. -/
def sortKey (x : NewsItem) : Nat :=
  if x.tag = "stock" then 0 else 1

/-- Concrete news items for exercising the pipeline. -/
def newsA : NewsItem :=
  { title := "腾讯回购", url := "u1", source := "s1", time := "",
    summary := "", tag := "stock" }

def newsB : NewsItem :=
  { title := "腾讯动态", url := "u2", source := "s2", time := "",
    summary := "", tag := "general" }

def newsC : NewsItem :=
  { title := "港股大涨", url := "u3", source := "s3", time := "",
    summary := "", tag := "stock" }

/-- A general-tagged item from a different source sharing `newsA`'s title. -/
def newsAdup : NewsItem :=
  { title := "腾讯回购", url := "u4", source := "s4", time := "",
    summary := "", tag := "general" }

/-!
## Theorems for the specification's claims
-/

/-- C1: `get_rating` is memoized per calendar date — if a rating is already
stored for today's date, a subsequent call on the same date returns exactly
that stored value, leaves the memo unchanged, and does not invoke the LLM
backend, whatever the backend would have returned. -/
theorem c1_rating_memoized (st : RatingCache) (today : String) (r : Rating)
    (h : List.lookup today st = some r) (hasKey : Bool) (outcome : LLMOutcome) :
    get_rating st today hasKey outcome = (r, st, false) := by
  simp [get_rating, h]

/-- Witness for C1: with `2025-03-01` memoized to the no-key neutral rating,
a second call on `2025-03-01` with the backend stubbed to a completely
different parsed rating returns the memoized value and does not invoke the
backend. -/
theorem c1_rating_memoized_witness :
    get_rating [("2025-03-01", noKeyRating "2025-03-01")] "2025-03-01" true
        (LLMOutcome.parsed { rating := some "强烈推荐", score := some (some 95),
                             summary := some "x", factors := none }) =
      (noKeyRating "2025-03-01", [("2025-03-01", noKeyRating "2025-03-01")], false) :=
  c1_rating_memoized [("2025-03-01", noKeyRating "2025-03-01")] "2025-03-01"
    (noKeyRating "2025-03-01") (by decide) true
    (LLMOutcome.parsed { rating := some "强烈推荐", score := some (some 95),
                         summary := some "x", factors := none })

/-- C2: the rating repair/validation step coerces an out-of-vocabulary
`rating` label to `中性`, clamps the parsed integer `score` to `[0,100]`,
overwrites `date` with today's date, and defaults absent `factors` to the
`--` placeholder triple; in particular a parsed `rating="buy-buy"`, `score=150` yields
`rating="中性"`, `score=100`, also when run through `get_rating`. -/
theorem c2_rating_repair :
    (∀ (p : ParsedRating) (today : String) (r : Rating),
        validateRating p today = some r →
        r.date = today ∧ 0 ≤ r.score ∧ r.score ≤ 100 ∧
        (∀ s, p.rating = some s → s ∉ valid_ratings → r.rating = "中性") ∧
        (p.rating = none → r.rating = "中性") ∧
        (∀ n, p.score = some (some n) → r.score = max 0 (min 100 n)) ∧
        (p.score = none → r.score = 50) ∧
        (p.factors = none → r.factors = defaultFactors)) ∧
    (validateRating { rating := some "buy-buy", score := some (some 150),
                      summary := none, factors := none } "2025-03-01" =
      some { date := "2025-03-01", rating := "中性", score := 100,
             summary := none, factors := defaultFactors }) ∧
    (∀ (st : RatingCache) (today : String), List.lookup today st = none →
        (get_rating st today true (LLMOutcome.parsed
            { rating := some "buy-buy", score := some (some 150),
              summary := none, factors := none })).1 =
          { date := today, rating := "中性", score := 100,
            summary := none, factors := defaultFactors }) := by
  refine ⟨?_, by decide, ?_⟩
  · intro p today r h
    unfold validateRating at h
    rcases hs : p.score with _ | (_ | n) <;> rw [hs] at h
    · cases h
      dsimp only
      refine ⟨rfl, le_max_left _ _, max_le (by norm_num) (min_le_left _ _),
        ?_, ?_, ?_, ?_, ?_⟩
      · intro s hps hmem
        rw [hps]
        simp [hmem]
      · intro hps
        rw [hps]
      · intro m hm
        cases hm
      · intro _
        norm_num
      · intro hf
        rw [hf]
        rfl
    · cases h
    · cases h
      dsimp only
      refine ⟨rfl, le_max_left _ _, max_le (by norm_num) (min_le_left _ _),
        ?_, ?_, ?_, ?_, ?_⟩
      · intro s hps hmem
        rw [hps]
        simp [hmem]
      · intro hps
        rw [hps]
      · intro m hm
        cases hm
        rfl
      · intro hps
        cases hps
      · intro hf
        rw [hf]
        rfl
  · intro st today h
    simp [get_rating, h, validateRating, valid_ratings]

/-- Witness for C2: the general validation facts instantiated at the
spec's concrete example object on date `2025-03-01`. -/
theorem c2_rating_repair_witness :
    ({ date := "2025-03-01", rating := "中性", score := 100,
       summary := none, factors := defaultFactors } : Rating).date = "2025-03-01" ∧
    (0 : Int) ≤ 100 ∧ (100 : Int) ≤ 100 ∧
    (get_rating [] "2025-03-01" true (LLMOutcome.parsed
        { rating := some "buy-buy", score := some (some 150),
          summary := none, factors := none })).1 =
      { date := "2025-03-01", rating := "中性", score := 100,
        summary := none, factors := defaultFactors } := by
  obtain ⟨hgen, hconc, hrun⟩ := c2_rating_repair
  obtain ⟨hd, h0, h1, -⟩ := hgen _ "2025-03-01" _ hconc
  exact ⟨hd, h0, h1, hrun [] "2025-03-01" rfl⟩

/-- C7: any failure of the LLM rating round-trip (network / non-200 / empty
content / JSON parse error, and also a post-parse repair failure) yields the
neutral fallback rating `中性`, score 50, with a summary stating generation
failure, and leaves `_rating_cache` unchanged, so a subsequent call on the
same date invokes the backend again. -/
theorem c7_rating_failure_atomic (st : RatingCache) (today : String)
    (outcome : LLMOutcome) (hmiss : List.lookup today st = none)
    (hfail : outcome = LLMOutcome.failure ∨
      ∃ p, outcome = LLMOutcome.parsed p ∧ validateRating p today = none) :
    get_rating st today true outcome = (errorRating today, st, true) ∧
    (errorRating today).rating = "中性" ∧
    (errorRating today).score = 50 ∧
    (errorRating today).summary = some "AI 评级生成失败，请稍后重试。" ∧
    (∀ outcome₂, (get_rating st today true outcome₂).2.2 = true) := by
  refine ⟨?_, rfl, rfl, rfl, ?_⟩
  · rcases hfail with h | ⟨p, hp, hv⟩
    · simp [get_rating, hmiss, h]
    · simp [get_rating, hmiss, hp, hv]
  · intro outcome₂
    rcases outcome₂ with _ | p
    · simp [get_rating, hmiss]
    · rcases hv : validateRating p today with _ | r <;>
        simp [get_rating, hmiss, hv]

/-- Witness for C7: a failing round-trip on an empty memo for `2025-03-01`
returns the neutral error fallback and stores nothing. -/
theorem c7_rating_failure_atomic_witness :
    get_rating [] "2025-03-01" true LLMOutcome.failure =
      (errorRating "2025-03-01", [], true) ∧
    (errorRating "2025-03-01").rating = "中性" ∧
    (errorRating "2025-03-01").score = 50 := by
  obtain ⟨h1, h2, h3, -⟩ :=
    c7_rating_failure_atomic [] "2025-03-01" LLMOutcome.failure rfl (Or.inl rfl)
  exact ⟨h1, h2, h3⟩

/-- C4: TTL cache contract — a key never written is absent; after a `set`,
a `get` strictly within the TTL window returns exactly the stored value and
returns absent once the TTL has elapsed; any value a `get` returns was
stored less than `CACHE_TTL` seconds before the read. -/
theorem c4_ttl_cache_contract :
    (∀ (ops : List (CacheOp (List KlinePoint))) (now : Int) (key : String),
        (∀ op ∈ ops, CacheOp.writes op ≠ some key) →
        cacheGet (runCacheOps ops) now key = none) ∧
    (∀ (c : Cache (List KlinePoint)) (t : Int) (key : String)
        (v : List KlinePoint) (now : Int), now - t < CACHE_TTL →
        cacheGet (cacheSet c t key v) now key = some v) ∧
    (∀ (c : Cache (List KlinePoint)) (t : Int) (key : String)
        (v : List KlinePoint) (now : Int), CACHE_TTL ≤ now - t →
        cacheGet (cacheSet c t key v) now key = none) ∧
    (∀ (c : Cache (List KlinePoint)) (now : Int) (key : String)
        (v : List KlinePoint), cacheGet c now key = some v →
        ∃ ts, List.lookup key c = some (ts, v) ∧ now - ts < CACHE_TTL) := by
  refine ⟨?_, ?_, ?_, ?_⟩
  · intro ops now key hw
    induction ops with
    | nil => rfl
    | cons op rest ih =>
      cases op with
      | set t k v =>
        have hne : k ≠ key := by
          have := hw (CacheOp.set t k v) (by simp)
          simpa [CacheOp.writes] using this
        have hk : (key == k) = false := beq_eq_false_iff_ne.mpr (Ne.symm hne)
        have hrest := ih (fun o ho => hw o (by simp [ho]))
        simpa [runCacheOps, cacheSet, cacheGet, List.lookup, hk] using hrest
      | clear => rfl
  · intro c t key v now h
    simp [cacheGet, cacheSet, List.lookup, h]
  · intro c t key v now h
    simp [cacheGet, cacheSet, List.lookup, not_lt.2 h]
  · intro c now key v h
    unfold cacheGet at h
    rcases hl : List.lookup key c with _ | ⟨ts, data⟩ <;> rw [hl] at h
    · cases h
    · dsimp only at h
      by_cases hts : now - ts < CACHE_TTL
      · rw [if_pos hts] at h
        cases h
        exact ⟨ts, rfl, hts⟩
      · rw [if_neg hts] at h
        cases h

/-- Witness for C4: concrete reads against a one-entry cache written at
time 0 — a different key is absent, the key reads back at time 299 and is
absent at time 300, and the time-299 hit admits a fresh-enough timestamp. -/
theorem c4_ttl_cache_contract_witness :
    cacheGet (runCacheOps [CacheOp.set 0 "stock_data" ([] : List KlinePoint)]) 5
        "news_data" = none ∧
    cacheGet (cacheSet ([] : Cache (List KlinePoint)) 0 "stock_data" []) 299
        "stock_data" = some [] ∧
    cacheGet (cacheSet ([] : Cache (List KlinePoint)) 0 "stock_data" []) 300
        "stock_data" = none ∧
    (∃ ts, List.lookup "stock_data"
        (cacheSet ([] : Cache (List KlinePoint)) 0 "stock_data" []) =
          some (ts, []) ∧ (299 : Int) - ts < CACHE_TTL) := by
  obtain ⟨h1, h2, h3, h4⟩ := c4_ttl_cache_contract
  refine ⟨h1 _ 5 "news_data" (by decide), h2 [] 0 "stock_data" [] 299 (by decide),
    h3 [] 0 "stock_data" [] 300 (by decide), h4 _ 299 "stock_data" [] (by decide)⟩

/-- Counterexample to C5 as stated: the cache key is built from the RAW
parameters (app.py line 171), not from the normalized ones.  After a call
with `period="foo"`, `count=5` on an empty cache, the result sits under
`"kline_foo_5"` while the key built from the normalized parameters
(`"kline_day_10"`) is absent — so a later `period="day"`, `count=10` call
cannot hit the entry just stored. -/
theorem c5_counterexample :
    cacheGet (fetch_kline_data [] 0 "foo" 5 klineProbe).2 0
        (klineCacheKey (normalizePeriod "foo") (normalizeCount 5)) = none ∧
    cacheGet (fetch_kline_data [] 0 "foo" 5 klineProbe).2 0
        (klineCacheKey "foo" 5) = some (klineProbe "day" 10) ∧
    klineCacheKey "foo" 5 ≠ klineCacheKey (normalizePeriod "foo") (normalizeCount 5) := by
  refine ⟨by decide, by decide, by decide⟩

/-- C5 (amended): `fetch_kline_data` coerces a `period` outside
`{day, week, month}` to `day` and clamps `count` to `[10, 1500]` for the
upstream request, so on a cache miss a call with `period="foo"`, `count=5`
returns the same data as the same call with `period="day"`, `count=10`; but
the cache key is built from the RAW parameters, so the two calls store and
look up under distinct keys. -/
theorem c5_kline_normalization :
    (∀ p : String, ¬(p = "day" ∨ p = "week" ∨ p = "month") →
        normalizePeriod p = "day") ∧
    (∀ c : Int, 10 ≤ normalizeCount c ∧ normalizeCount c ≤ 1500) ∧
    normalizePeriod "foo" = "day" ∧ normalizeCount 5 = 10 ∧
    (∀ (cache : Cache (List KlinePoint)) (now : Int) (p : String) (c : Int)
        (u : String → Int → List KlinePoint),
        cacheGet cache now (klineCacheKey p c) = none →
        fetch_kline_data cache now p c u =
          (u (normalizePeriod p) (normalizeCount c),
           cacheSet cache now (klineCacheKey p c)
             (u (normalizePeriod p) (normalizeCount c)))) ∧
    (∀ (cache : Cache (List KlinePoint)) (now : Int)
        (u : String → Int → List KlinePoint),
        cacheGet cache now (klineCacheKey "foo" 5) = none →
        cacheGet cache now (klineCacheKey "day" 10) = none →
        (fetch_kline_data cache now "foo" 5 u).1 =
          (fetch_kline_data cache now "day" 10 u).1) ∧
    klineCacheKey "foo" 5 ≠ klineCacheKey "day" 10 := by
  have hmiss : ∀ (cache : Cache (List KlinePoint)) (now : Int) (p : String)
      (c : Int) (u : String → Int → List KlinePoint),
      cacheGet cache now (klineCacheKey p c) = none →
      fetch_kline_data cache now p c u =
        (u (normalizePeriod p) (normalizeCount c),
         cacheSet cache now (klineCacheKey p c)
           (u (normalizePeriod p) (normalizeCount c))) := by
    intro cache now p c u h
    simp only [fetch_kline_data, h]
  refine ⟨?_, ?_, by decide, by decide, hmiss, ?_, by decide⟩
  · intro p hp
    simp only [normalizePeriod, if_neg hp]
  · intro c
    constructor
    · simp only [normalizeCount, le_min_iff]
      exact ⟨le_max_right _ _, by norm_num⟩
    · exact min_le_right _ _
  · intro cache now u h1 h2
    rw [hmiss cache now "foo" 5 u h1, hmiss cache now "day" 10 u h2]
    have h3 : normalizePeriod "foo" = "day" := by decide
    have h4 : normalizeCount 5 = (10 : Int) := by decide
    have h5 : normalizePeriod "day" = "day" := by decide
    have h6 : normalizeCount 10 = (10 : Int) := by decide
    simp [h3, h4, h5, h6]

/-- Witness for C5 (amended): the general facts instantiated at concrete
inputs — `period="foo"`, `count=5` on the empty cache returns exactly the
upstream data for `("day", 10)`, and equals the `("day", 10)` call's data. -/
theorem c5_kline_normalization_witness :
    normalizePeriod "foo" = "day" ∧
    (10 ≤ normalizeCount (-3) ∧ normalizeCount (-3) ≤ 1500) ∧
    fetch_kline_data [] 0 "foo" 5 klineProbe =
      (klineProbe "day" 10, cacheSet [] 0 (klineCacheKey "foo" 5) (klineProbe "day" 10)) ∧
    (fetch_kline_data [] 0 "foo" 5 klineProbe).1 =
      (fetch_kline_data [] 0 "day" 10 klineProbe).1 := by
  obtain ⟨hp, hc, -, -, hm, hb, -⟩ := c5_kline_normalization
  refine ⟨hp "foo" (by decide), hc (-3), ?_, hb [] 0 klineProbe rfl rfl⟩
  have := hm [] 0 "foo" 5 klineProbe rfl
  simpa using this

/-- C10: a cached EMPTY result is behaviorally a cache miss.  If the cache
holds an empty list for the kline or news key — stored strictly within the
TTL window, so `_get_cache` does return it — the caller's truthiness test
`if cached:` rejects it: the full upstream fetch is re-executed, its result
is stored again, and the call's output equals that of the same call against
a cache with no fresh entry at all. -/
theorem c10_cached_empty_is_miss :
    (∀ (cache : Cache (List KlinePoint)) (ts now : Int) (p : String) (c : Int)
        (u : String → Int → List KlinePoint),
        List.lookup (klineCacheKey p c) cache = some (ts, []) →
        now - ts < CACHE_TTL →
        fetch_kline_data cache now p c u =
          (u (normalizePeriod p) (normalizeCount c),
           cacheSet cache now (klineCacheKey p c)
             (u (normalizePeriod p) (normalizeCount c)))) ∧
    (∀ (cache cache₂ : Cache (List KlinePoint)) (ts now : Int) (p : String)
        (c : Int) (u : String → Int → List KlinePoint),
        List.lookup (klineCacheKey p c) cache = some (ts, []) →
        now - ts < CACHE_TTL →
        cacheGet cache₂ now (klineCacheKey p c) = none →
        (fetch_kline_data cache now p c u).1 =
          (fetch_kline_data cache₂ now p c u).1) ∧
    (∀ (cache : Cache (List NewsItem)) (ts now : Int)
        (gathered : List NewsItem),
        List.lookup "news_data" cache = some (ts, []) →
        now - ts < CACHE_TTL →
        fetch_news cache now gathered =
          (newsPipeline gathered,
           cacheSet cache now "news_data" (newsPipeline gathered))) := by
  have hkl : ∀ (cache : Cache (List KlinePoint)) (ts now : Int) (p : String)
      (c : Int) (u : String → Int → List KlinePoint),
      List.lookup (klineCacheKey p c) cache = some (ts, []) →
      now - ts < CACHE_TTL →
      fetch_kline_data cache now p c u =
        (u (normalizePeriod p) (normalizeCount c),
         cacheSet cache now (klineCacheKey p c)
           (u (normalizePeriod p) (normalizeCount c))) := by
    intro cache ts now p c u hl hts
    have hget : cacheGet cache now (klineCacheKey p c) = some [] := by
      simp [cacheGet, hl, hts]
    simp only [fetch_kline_data, hget, List.isEmpty_nil, if_true]
  refine ⟨hkl, ?_, ?_⟩
  · intro cache cache₂ ts now p c u hl hts h2
    rw [hkl cache ts now p c u hl hts]
    simp only [fetch_kline_data, h2]
  · intro cache ts now gathered hl hts
    have hget : cacheGet cache now "news_data" = some [] := by
      simp [cacheGet, hl, hts]
    simp only [fetch_news, hget, List.isEmpty_nil, if_true]

/-- Witness for C10: a cache holding an empty kline list (stored at time 0,
read at time 100, well within the TTL) is refetched from upstream, and a
cache holding an empty news list likewise re-runs the news pipeline. -/
theorem c10_cached_empty_is_miss_witness :
    fetch_kline_data [(klineCacheKey "day" 60, (0, []))] 100 "day" 60 klineProbe =
      (klineProbe "day" 60,
       cacheSet [(klineCacheKey "day" 60, (0, []))] 100 (klineCacheKey "day" 60)
         (klineProbe "day" 60)) ∧
    fetch_news [("news_data", (0, []))] 100 [] =
      ([], cacheSet [("news_data", (0, []))] 100 "news_data" []) := by
  obtain ⟨h1, -, h3⟩ := c10_cached_empty_is_miss
  constructor
  · have := h1 [(klineCacheKey "day" 60, (0, []))] 0 100 "day" 60 klineProbe
      (by decide) (by decide)
    simpa using this
  · have := h3 [("news_data", (0, []))] 0 100 [] (by decide) (by decide)
    simpa using this

/-- C8: the fallback analysis generator is deterministic — two invocations
on identical quote, news and kline inputs with the same generation timestamp
produce byte-identical reports.  The embedding is a pure function whose only
wall-clock dependence is the `now` timestamp parameter, so equal inputs give
equal output. -/
theorem c8_fallback_deterministic (s₁ s₂ : StockInfo) (n₁ n₂ : List NewsItem)
    (k₁ k₂ : List KlinePoint) (t₁ t₂ : String)
    (hs : s₁ = s₂) (hn : n₁ = n₂) (hk : k₁ = k₂) (ht : t₁ = t₂) :
    generateFallbackAnalysis s₁ n₁ k₁ t₁ = generateFallbackAnalysis s₂ n₂ k₂ t₂ := by
  subst hs
  subst hn
  subst hk
  subst ht
  rfl

/-- Witness for C8: two invocations on a concrete sentinel quote, empty news
and empty kline data with a fixed timestamp coincide. -/
theorem c8_fallback_deterministic_witness :
    generateFallbackAnalysis (initStockInfo "2025-03-01 10:00:00") [] []
        "2025年03月01日 10:00" =
      generateFallbackAnalysis (initStockInfo "2025-03-01 10:00:00") [] []
        "2025年03月01日 10:00" :=
  c8_fallback_deterministic _ _ _ _ _ _ _ _ rfl rfl rfl rfl

/-- Appending a stopping line after a block of non-stopping lines ends the
stream with the block's fragments: normally for a terminator line, aborted
for an uncaught-`TypeError` line; the lines after the stop are never
consumed. -/
theorem streamFragments_append_stop (decode : String → Option PyVal)
    (pre : List String) (line : String) (rest : List String) :
    (∀ l ∈ pre, (processLine decode l).isStop = false) →
    (processLine decode line = LineAct.term →
      streamFragments decode (pre ++ line :: rest) =
        (pre.filterMap (emittedFragment decode), StreamEnd.finished)) ∧
    (processLine decode line = LineAct.abort →
      streamFragments decode (pre ++ line :: rest) =
        (pre.filterMap (emittedFragment decode), StreamEnd.aborted)) := by
  induction pre with
  | nil =>
    intro _
    constructor <;> intro h <;> simp [streamFragments, h]
  | cons p ps ih =>
    intro hpre
    have hp := hpre p (List.mem_cons_self _ _)
    have hps : ∀ l ∈ ps, (processLine decode l).isStop = false :=
      fun l hl => hpre l (List.mem_cons_of_mem _ hl)
    obtain ⟨ih1, ih2⟩ := ih hps
    rcases hpl : processLine decode p with v | _ | _ | _
    · constructor <;> intro h
      · simp [streamFragments, hpl, List.filterMap_cons, emittedFragment, ih1 h]
      · simp [streamFragments, hpl, List.filterMap_cons, emittedFragment, ih2 h]
    · constructor <;> intro h
      · simp [streamFragments, hpl, List.filterMap_cons, emittedFragment, ih1 h]
      · simp [streamFragments, hpl, List.filterMap_cons, emittedFragment, ih2 h]
    · rw [hpl] at hp
      simp [LineAct.isStop] at hp
    · rw [hpl] at hp
      simp [LineAct.isStop] at hp

/-- Counterexample to C9 as stated: the inner `except` tuple at app.py
lines 517/951 is `(json.JSONDecodeError, KeyError, IndexError)` and omits
`TypeError`, so a `data: ` line whose payload is valid JSON but not an
object — here `data: null` — is NOT silently skipped: subscripting
`chunk["choices"]` on `None` raises an uncaught `TypeError` that aborts
the stream, and a well-formed content line after it is never consumed. -/
theorem c9_counterexample :
    processLine c9decode "data: null" = LineAct.abort ∧
    streamFragments c9decode ["data: null", "data: payload1"] =
      ([], StreamEnd.aborted) ∧
    ¬ streamFragments c9decode ["data: null", "data: payload1"] =
        ([PyVal.pyStr "Hello"], StreamEnd.finished) := by
  refine ⟨rfl, rfl, ?_⟩
  intro h
  exact StreamEnd.noConfusion (congrArg Prod.snd h)

/-- C9 (amended): while consuming a successful LLM SSE response, a
`data: ` line carrying the literal terminator ends the sequence; a
`data: ` line whose payload decodes to an object with
`choices[0].delta.content` yields that content verbatim as the next
fragment; a line whose processing raises `json.JSONDecodeError`,
`KeyError` or `IndexError` (undecodable payload, missing `choices` or
`delta` key, empty `choices` list), and any line without the `data: `
prefix, is silently skipped; but because the `except` tuple omits
`TypeError`, a payload that is valid JSON of an unexpected type along that
path (`null`, an array, a string) ABORTS the stream: the fragments are
those of the lines before the first stopping line and the remaining lines
are never consumed, control passing to the outer exception handler. -/
theorem c9_stream_consumption_amended :
    (∀ (decode : String → Option PyVal) (lines : List String),
        (streamFragments decode lines).1 =
          (lines.takeWhile
              (fun l => !(processLine decode l).isStop)).filterMap
            (emittedFragment decode)) ∧
    (∀ (decode : String → Option PyVal) (pre : List String) (line : String)
        (rest : List String),
        (∀ l ∈ pre, (processLine decode l).isStop = false) →
        processLine decode line = LineAct.term →
        streamFragments decode (pre ++ line :: rest) =
          (pre.filterMap (emittedFragment decode), StreamEnd.finished)) ∧
    (∀ (decode : String → Option PyVal) (pre : List String) (line : String)
        (rest : List String),
        (∀ l ∈ pre, (processLine decode l).isStop = false) →
        processLine decode line = LineAct.abort →
        streamFragments decode (pre ++ line :: rest) =
          (pre.filterMap (emittedFragment decode), StreamEnd.aborted)) ∧
    (∀ decode (line : String), pyStartsWith line "data: " = true →
        pyStrip (pyDrop line 6) = "[DONE]" →
        processLine decode line = LineAct.term) ∧
    (∀ decode (line : String) (chunk v : PyVal),
        pyStartsWith line "data: " = true →
        ¬ pyStrip (pyDrop line 6) = "[DONE]" →
        decode (pyDrop line 6) = some chunk →
        lineOutcome chunk = LineAct.emit v →
        processLine decode line = LineAct.emit v) ∧
    (∀ decode (line : String), pyStartsWith line "data: " = true →
        ¬ pyStrip (pyDrop line 6) = "[DONE]" →
        decode (pyDrop line 6) = none →
        processLine decode line = LineAct.skip) ∧
    (∀ d : List (String × PyVal), List.lookup "choices" d = none →
        lineOutcome (PyVal.pyDict d) = LineAct.skip) ∧
    lineOutcome (PyVal.pyDict [("choices", PyVal.pyList [])]) = LineAct.skip ∧
    lineOutcome PyVal.pyNull = LineAct.abort ∧
    (∀ xs, lineOutcome (PyVal.pyList xs) = LineAct.abort) ∧
    (∀ s, lineOutcome (PyVal.pyStr s) = LineAct.abort) ∧
    (∀ decode (line : String), pyStartsWith line "data: " = false →
        processLine decode line = LineAct.skip) := by
  refine ⟨?_, ?_, ?_, ?_, ?_, ?_, ?_, rfl, rfl, fun xs => rfl, fun s => rfl, ?_⟩
  · intro decode lines
    induction lines with
    | nil => rfl
    | cons l ls ih =>
      rcases hpl : processLine decode l with v | _ | _ | _ <;>
        simp [streamFragments, hpl, List.takeWhile_cons, List.filterMap_cons,
          emittedFragment, LineAct.isStop, ih]
  · intro decode pre line rest hpre hline
    exact (streamFragments_append_stop decode pre line rest hpre).1 hline
  · intro decode pre line rest hpre hline
    exact (streamFragments_append_stop decode pre line rest hpre).2 hline
  · intro decode line h1 h2
    simp [processLine, h1, h2]
  · intro decode line chunk v h1 h2 h3 h4
    simp [processLine, h1, h2, h3, h4]
  · intro decode line h1 h2 h3
    simp [processLine, h1, h2, h3]
  · intro d hd
    simp [lineOutcome, pyGetStr, hd]
  · intro decode line h1
    simp [processLine, h1]

/-- Witness for C9 (amended): on a concrete body with the `c9decode`
decoder — a skipped undecodable line, then a content line, then the
terminator, then an unreachable content line — the stream yields exactly
`"Hello"` and finishes; moving a `data: null` line into the body aborts
the stream right after the first fragment; and the per-line
classifications hold at concrete lines. -/
theorem c9_stream_consumption_amended_witness :
    streamFragments c9decode
        ["data: oops", "data: payload1", "data: [DONE]", "data: payload1"] =
      ([PyVal.pyStr "Hello"], StreamEnd.finished) ∧
    streamFragments c9decode
        ["data: payload1", "data: null", "data: payload1"] =
      ([PyVal.pyStr "Hello"], StreamEnd.aborted) ∧
    processLine c9decode "data: [DONE]" = LineAct.term ∧
    processLine c9decode "data: payload1" = LineAct.emit (PyVal.pyStr "Hello") ∧
    processLine c9decode "data: oops" = LineAct.skip ∧
    processLine c9decode "ping" = LineAct.skip := by
  obtain ⟨h1, h2, h3, h4, h5, h6, h7, h8, h9, h10, h11, h12⟩ :=
    c9_stream_consumption_amended
  refine ⟨?_, ?_,
    h4 c9decode "data: [DONE]" (by decide) (by decide),
    h5 c9decode "data: payload1" _ (PyVal.pyStr "Hello") (by decide) (by decide)
      rfl rfl,
    h6 c9decode "data: oops" (by decide) (by decide) rfl,
    h12 c9decode "ping" (by decide)⟩
  · exact (h2 c9decode ["data: oops", "data: payload1"] "data: [DONE]"
      ["data: payload1"] (by decide) rfl).trans rfl
  · exact (h3 c9decode ["data: payload1"] "data: null"
      ["data: payload1"] (by decide) rfl).trans rfl



/-- Counterexample to C6 as stated: when the primary quote feed fails
entirely and the secondary feed succeeds, NOT all price-related fields stay
at the sentinel — app.py lines 146-147 back-fill `current_price` from
`qt[3]` precisely when the primary left it at `"--"`.  Valuation fields are
populated as claimed. -/
theorem c6_counterexample :
    ¬ ((buildStockInfo "2025-03-01 10:00:00" FeedResult.failure
          (FeedResult.resp 200 c6Qt)).current_price = "--") ∧
    (buildStockInfo "2025-03-01 10:00:00" FeedResult.failure
        (FeedResult.resp 200 c6Qt)).current_price = "610.5" ∧
    (buildStockInfo "2025-03-01 10:00:00" FeedResult.failure
        (FeedResult.resp 200 c6Qt)).market_cap = "56000" ∧
    (buildStockInfo "2025-03-01 10:00:00" FeedResult.failure
        (FeedResult.resp 200 c6Qt)).pe_ratio = "20.1" := by
  refine ⟨by decide, by decide, by decide, by decide⟩

/-- C6 (amended): when the primary quote feed fails entirely and the
secondary feed succeeds, the resulting record never raises (the builder is
total), the price-related fields OTHER THAN `current_price` stay at the
sentinel `"--"`, `current_price` is back-filled from the secondary feed's
`qt[3]`, and the valuation fields (market cap at `qt[45]`, P/E at `qt[39]`)
are populated from the secondary feed. -/
theorem c6_quote_merge (nowStr : String) (qt : List String)
    (h : 45 < qt.length) :
    (buildStockInfo nowStr FeedResult.failure (FeedResult.resp 200 qt)).change = "--" ∧
    (buildStockInfo nowStr FeedResult.failure (FeedResult.resp 200 qt)).change_percent = "--" ∧
    (buildStockInfo nowStr FeedResult.failure (FeedResult.resp 200 qt)).open_ = "--" ∧
    (buildStockInfo nowStr FeedResult.failure (FeedResult.resp 200 qt)).high = "--" ∧
    (buildStockInfo nowStr FeedResult.failure (FeedResult.resp 200 qt)).low = "--" ∧
    (buildStockInfo nowStr FeedResult.failure (FeedResult.resp 200 qt)).prev_close = "--" ∧
    (buildStockInfo nowStr FeedResult.failure (FeedResult.resp 200 qt)).volume = "--" ∧
    (buildStockInfo nowStr FeedResult.failure (FeedResult.resp 200 qt)).turnover = "--" ∧
    (buildStockInfo nowStr FeedResult.failure (FeedResult.resp 200 qt)).current_price =
      qt.getD 3 "" ∧
    (buildStockInfo nowStr FeedResult.failure (FeedResult.resp 200 qt)).market_cap =
      qt.getD 45 "" ∧
    (buildStockInfo nowStr FeedResult.failure (FeedResult.resp 200 qt)).pe_ratio =
      qt.getD 39 "" := by
  have hne : ¬ qt.isEmpty = true := by
    cases qt with
    | nil => simp at h
    | cons a l => simp
  have h39 : 39 < qt.length := by omega
  simp [buildStockInfo, applyPrimary, applySecondary, initStockInfo, hne, h, h39]

/-- Witness for C6 (amended): the merge facts instantiated at the concrete
46-entry secondary payload. -/
theorem c6_quote_merge_witness :
    (buildStockInfo "T" FeedResult.failure (FeedResult.resp 200 c6Qt)).change = "--" ∧
    (buildStockInfo "T" FeedResult.failure (FeedResult.resp 200 c6Qt)).change_percent = "--" ∧
    (buildStockInfo "T" FeedResult.failure (FeedResult.resp 200 c6Qt)).open_ = "--" ∧
    (buildStockInfo "T" FeedResult.failure (FeedResult.resp 200 c6Qt)).high = "--" ∧
    (buildStockInfo "T" FeedResult.failure (FeedResult.resp 200 c6Qt)).low = "--" ∧
    (buildStockInfo "T" FeedResult.failure (FeedResult.resp 200 c6Qt)).prev_close = "--" ∧
    (buildStockInfo "T" FeedResult.failure (FeedResult.resp 200 c6Qt)).volume = "--" ∧
    (buildStockInfo "T" FeedResult.failure (FeedResult.resp 200 c6Qt)).turnover = "--" ∧
    (buildStockInfo "T" FeedResult.failure (FeedResult.resp 200 c6Qt)).current_price =
      c6Qt.getD 3 "" ∧
    (buildStockInfo "T" FeedResult.failure (FeedResult.resp 200 c6Qt)).market_cap =
      c6Qt.getD 45 "" ∧
    (buildStockInfo "T" FeedResult.failure (FeedResult.resp 200 c6Qt)).pe_ratio =
      c6Qt.getD 39 "" :=
  c6_quote_merge "T" c6Qt (by decide)

/-- The stable sort of app.py line 397 is a permutation of its input. -/
theorem sortStockFirst_perm (l : List NewsItem) : (sortStockFirst l).Perm l := by
  unfold sortStockFirst
  simpa only [decide_not] using
    List.filter_append_perm (fun x => decide (x.tag = "stock")) l

/-- After the stable sort, sort keys are monotone along the list. -/
theorem sortStockFirst_pairwise (l : List NewsItem) :
    (sortStockFirst l).Pairwise (fun a b => sortKey a ≤ sortKey b) := by
  unfold sortStockFirst
  rw [List.pairwise_append]
  refine ⟨List.pairwise_of_forall_mem_list ?_,
    List.pairwise_of_forall_mem_list ?_, ?_⟩
  · intro a ha b hb
    have h : a.tag = "stock" := of_decide_eq_true (List.mem_filter.mp ha).2
    simp [sortKey, h]
  · intro a ha b hb
    have h : ¬ b.tag = "stock" := of_decide_eq_true (List.mem_filter.mp hb).2
    have hb1 : sortKey b = 1 := by simp [sortKey, h]
    rw [hb1]
    unfold sortKey
    split <;> omega
  · intro a ha b hb
    have h : a.tag = "stock" := of_decide_eq_true (List.mem_filter.mp ha).2
    simp [sortKey, h]

/-- The dedup loop produces pairwise-distinct titles, all of them outside
the initial `seen` set. -/
theorem dedupByTitle_nodup (l : List NewsItem) : ∀ seen : List String,
    ((dedupByTitle seen l).map NewsItem.title).Nodup ∧
    ∀ x ∈ dedupByTitle seen l, x.title ∉ seen := by
  induction l with
  | nil => intro seen; exact ⟨List.nodup_nil, by simp [dedupByTitle]⟩
  | cons n ns ih =>
    intro seen
    by_cases h : n.title ∈ seen
    · simpa [dedupByTitle, h] using ih seen
    · obtain ⟨ihn, ihm⟩ := ih (n.title :: seen)
      refine ⟨?_, ?_⟩
      · simp only [dedupByTitle, if_neg h, List.map_cons]
        refine List.nodup_cons.mpr ⟨?_, ihn⟩
        intro hmem
        obtain ⟨x, hx, hxt⟩ := List.mem_map.mp hmem
        exact (ihm x hx) (by rw [hxt]; exact List.mem_cons_self _ _)
      · intro x hx
        simp only [dedupByTitle, if_neg h, List.mem_cons] at hx
        rcases hx with rfl | hx
        · exact h
        · intro hxs
          exact (ihm x hx) (List.mem_cons_of_mem _ hxs)

/-- Every item surviving the dedup loop is the FIRST input item bearing its
title. -/
theorem dedupByTitle_first_seen (l : List NewsItem) : ∀ (seen : List String)
    (x : NewsItem), x ∈ dedupByTitle seen l →
    ∃ l₁ l₂, l = l₁ ++ x :: l₂ ∧ ∀ y ∈ l₁, y.title ≠ x.title := by
  induction l with
  | nil => intro seen x hx; simp [dedupByTitle] at hx
  | cons n ns ih =>
    intro seen x hx
    by_cases h : n.title ∈ seen
    · rw [show dedupByTitle seen (n :: ns) = dedupByTitle seen ns by
        simp [dedupByTitle, h]] at hx
      have hxs : x.title ∉ seen := (dedupByTitle_nodup ns seen).2 x hx
      obtain ⟨l₁, l₂, rfl, hl₁⟩ := ih seen x hx
      refine ⟨n :: l₁, l₂, rfl, ?_⟩
      intro y hy
      rcases List.mem_cons.mp hy with rfl | hy
      · exact fun he => hxs (he ▸ h)
      · exact hl₁ y hy
    · simp only [dedupByTitle, if_neg h, List.mem_cons] at hx
      rcases hx with rfl | hx
      · exact ⟨[], ns, rfl, by simp⟩
      · have hxs : x.title ∉ n.title :: seen :=
          (dedupByTitle_nodup ns (n.title :: seen)).2 x hx
        obtain ⟨l₁, l₂, rfl, hl₁⟩ := ih (n.title :: seen) x hx
        refine ⟨n :: l₁, l₂, rfl, ?_⟩
        intro y hy
        rcases List.mem_cons.mp hy with rfl | hy
        · exact fun he => hxs (he ▸ List.mem_cons_self _ _)
        · exact hl₁ y hy

/-- C3: the news aggregation output is the input deduplicated by exact
title (keeping the first-seen item), stably partitioned with stock-tagged
items before general-tagged ones, and truncated to 25: no general-tagged
item precedes a stock-tagged one, output titles are pairwise distinct,
every output item is the first input item with its title, the output has at
most 25 items, and a two-item input with identical titles yields exactly
the first-seen item. -/
theorem c3_news_pipeline :
    (∀ (input : List NewsItem) (i j : Nat) (hij : i < j)
        (hj : j < (newsPipeline input).length),
        ((newsPipeline input).get ⟨j, hj⟩).tag = "stock" →
        ((newsPipeline input).get ⟨i, Nat.lt_trans hij hj⟩).tag = "stock") ∧
    (∀ input, ((newsPipeline input).map NewsItem.title).Nodup) ∧
    (∀ (input : List NewsItem) (x : NewsItem), x ∈ newsPipeline input →
        ∃ l₁ l₂, input = l₁ ++ x :: l₂ ∧ ∀ y ∈ l₁, y.title ≠ x.title) ∧
    (∀ input, (newsPipeline input).length ≤ 25) ∧
    (∀ a b : NewsItem, a.title = b.title → newsPipeline [a, b] = [a]) := by
  refine ⟨?_, ?_, ?_, ?_, ?_⟩
  · intro input i j hij hj hstock
    have hpw : (newsPipeline input).Pairwise (fun a b => sortKey a ≤ sortKey b) :=
      List.Pairwise.sublist (List.take_sublist _ _) (sortStockFirst_pairwise _)
    have hrel := List.pairwise_iff_get.mp hpw ⟨i, Nat.lt_trans hij hj⟩ ⟨j, hj⟩ hij
    have hkey : sortKey ((newsPipeline input).get ⟨j, hj⟩) = 0 := by
      unfold sortKey
      rw [if_pos hstock]
    rw [hkey] at hrel
    have h0 := Nat.le_zero.mp hrel
    unfold sortKey at h0
    split at h0
    · assumption
    · exact absurd h0 Nat.one_ne_zero
  · intro input
    have hd := (dedupByTitle_nodup input []).1
    have hperm := (sortStockFirst_perm (dedupByTitle [] input)).map NewsItem.title
    have hs : ((sortStockFirst (dedupByTitle [] input)).map NewsItem.title).Nodup :=
      hperm.nodup_iff.mpr hd
    exact List.Nodup.sublist ((List.take_sublist 25 _).map _) hs
  · intro input x hx
    have hx2 : x ∈ sortStockFirst (dedupByTitle [] input) :=
      List.take_subset _ _ hx
    have hx3 : x ∈ dedupByTitle [] input :=
      (sortStockFirst_perm _).mem_iff.mp hx2
    exact dedupByTitle_first_seen input [] x hx3
  · intro input
    exact List.length_take_le 25 _
  · intro a b hab
    by_cases h : a.tag = "stock" <;>
      simp [newsPipeline, dedupByTitle, sortStockFirst, hab, h]

/-- Witness for C3: on the concrete input `[general, stockA, stockC]` the
output's first two entries are stock-tagged, titles are distinct, `stockA`
is the first-seen bearer of its title, the output is within the 25 cap, and
the duplicate-title pair collapses to its first-seen item. -/
theorem c3_news_pipeline_witness :
    ((newsPipeline [newsB, newsA, newsC]).get ⟨0, by decide⟩).tag = "stock" ∧
    ((newsPipeline [newsB, newsA, newsC]).map NewsItem.title).Nodup ∧
    (∃ l₁ l₂, [newsB, newsA, newsC] = l₁ ++ newsA :: l₂ ∧
      ∀ y ∈ l₁, y.title ≠ newsA.title) ∧
    (newsPipeline [newsB, newsA, newsC]).length ≤ 25 ∧
    newsPipeline [newsA, newsAdup] = [newsA] := by
  obtain ⟨h1, h2, h3, h4, h5⟩ := c3_news_pipeline
  exact ⟨h1 [newsB, newsA, newsC] 0 1 (by decide) (by decide) (by decide),
    h2 _, h3 _ newsA (by decide), h4 _, h5 newsA newsAdup (by decide)⟩

end StockAgent
